import Mathlib

/-!
Verification of the Runner/Service lifecycle core of the derezzolution
platform (src/service/runner.go and the shutdown portion of the service
file) against its specification.

Conventions of the embedding:
* Go `time.Duration` is an `Int` count of nanoseconds (Go stores an int64
  count of nanoseconds; the quantities here never approach overflow).
* `rand.Float64()` draws a value in `[0, 1)`; it is modelled as an exact
  rational `u` with `0 ≤ u` and `u < 1`.
* `float64` arithmetic on durations (`Duration.Seconds`, the jitter
  product) is modelled exactly over `ℚ`; the Go conversion
  `time.Duration(f)` of a float truncates toward zero, modelled by
  `goTruncToInt`.
* The `sync.Mutex` and the `sync.WaitGroup` are fields of the `Runner`
  struct; their abstract states (held or not, current counter) are part
  of the `Runner` state here. An operation that tries to lock a mutex
  that is held and never released blocks forever, modelled by returning
  `none`.
-/

namespace Platform

/-- `RunnerConfig` from runner.go; durations in nanoseconds. -/
structure RunnerConfig where
  InitDelayDuration : Int
  InitDelayJitterDuration : Int
  MaximumCleanUpDuration : Int
  Name : String
  WorkerSleepDuration : Int
deriving DecidableEq, Repr

/-- `Runner` from runner.go. `wgCount` is the counter of the `sync.WaitGroup`
field `wg`: the number of in-flight `run` invocations (`run` does
`wg.Add(1)` before and `wg.Done()` after each work-function call).
`mutexHeld` is the state of the `sync.Mutex` field `mutex`. -/
structure Runner where
  config : RunnerConfig
  isStopping : Bool
  nWorkers : Int
  wgCount : Int
  mutexHeld : Bool
deriving DecidableEq, Repr

/-- `NewRunner`: a fresh runner with `isStopping = false` and zero-valued
counter, waitgroup and mutex. -/
def NewRunner (config : RunnerConfig) : Runner :=
  { config := config, isStopping := false, nWorkers := 0, wgCount := 0,
    mutexHeld := false }

/-- `countNewWorker`: lock the mutex, increment `nWorkers`, unlock (deferred).
Blocks forever (`none`) if the mutex is held and never released. -/
def countNewWorker (r : Runner) : Option Runner :=
  if r.mutexHeld then none
  else some { r with nWorkers := r.nWorkers + 1 }

/-- `parkWorker`: lock the mutex, decrement `nWorkers`, unlock (deferred).
Blocks forever (`none`) if the mutex is held and never released. -/
def parkWorker (r : Runner) : Option Runner :=
  if r.mutexHeld then none
  else some { r with nWorkers := r.nWorkers - 1 }

/-- The `wg.Add(1)` at the top of `run`. -/
def runBegin (r : Runner) : Runner :=
  { r with wgCount := r.wgCount + 1 }

/-- The deferred `wg.Done()` of `run`, executed when the work function
returns. -/
def runEnd (r : Runner) : Runner :=
  { r with wgCount := r.wgCount - 1 }

/-- `Duration.Seconds()`: the duration as a (here: exact) number of
seconds. -/
def durationSeconds (d : Int) : ℚ :=
  (d : ℚ) / 1000000000

/-- The Go conversion `time.Duration(f)` of a float value: truncation toward
zero. -/
def goTruncToInt (q : ℚ) : Int :=
  if q < 0 then ⌈q⌉ else ⌊q⌋

/-- The jitter term of the start delay in `StartNewWorker`, in nanoseconds:
if `InitDelayJitterDuration.Seconds() > 0`, the float product
`Seconds() * rand.Float64()` is converted to `time.Duration` (truncation
toward zero, yielding a whole number, numerically of seconds) and
multiplied by `time.Second`; otherwise nothing is added. -/
def jitterNanos (jitterBound : Int) (u : ℚ) : Int :=
  if 0 < durationSeconds jitterBound then
    goTruncToInt (durationSeconds jitterBound * u) * 1000000000
  else 0

/-- The start delay computed at the top of the worker goroutine of
`StartNewWorker`: `1 * time.Second` plus `InitDelayDuration` plus the
jitter term, for the draw `u` of `rand.Float64()`. -/
def startDelay (config : RunnerConfig) (u : ℚ) : Int :=
  1000000000 + config.InitDelayDuration + jitterNanos config.InitDelayJitterDuration u

/-- `StartNewWorker`: `countNewWorker` runs synchronously on the calling
thread (taking the mutex) before the worker goroutine is spawned. The
result is the runner state at the moment `StartNewWorker` returns,
together with the start delay the spawned worker will compute from the
draw `u`. `none` if the mutex is held forever. -/
def StartNewWorker (r : Runner) (u : ℚ) : Option (Runner × Int) :=
  match countNewWorker r with
  | none => none
  | some r' => some (r', startDelay r'.config u)

/-- Errors `Stop` can return. The timeout error message reports
`MaximumCleanUpDuration.Seconds()`; the error here carries that configured
duration. -/
inductive StopError where
  | alreadyStopping
  | timeout (configuredDuration : Int)
deriving DecidableEq, Repr

deriving instance DecidableEq for Except

/-- What a completed `Stop` call produced: its return value, how long the
caller was blocked inside `Stop` (nanoseconds, measured from entry), and
the runner state at return. -/
structure StopOutcome where
  result : Except StopError Unit
  blockedDuration : Int
  runner : Runner
deriving DecidableEq, Repr

/-- `Stop` from runner.go. `wgEmptyTime` abstracts the concurrent
environment: the time (from entry, nanoseconds) at which the spawned
`r.wg.Wait()` goroutine would signal the channel `c`, i.e. at which the
waitgroup counter is (and stays long enough to be observed) zero; `none`
if that never happens. In particular, if `r.wgCount = 0` at entry and no
worker is about to re-enter `run`, `wg.Wait` returns at once and
`wgEmptyTime = some 0`.

Structure of the source: lock the mutex; if already stopping, return the
"already stopping" error — this early return does NOT unlock the mutex.
Otherwise set `isStopping`, unlock, and `select` between the waitgroup
channel and `time.After(MaximumCleanUpDuration)`: success if the
waitgroup empties within the window, else the timeout error. An
outer `none` means the caller blocked forever on the mutex. -/
def Stop (r : Runner) (wgEmptyTime : Option Int) : Option StopOutcome :=
  if r.mutexHeld then none
  else if r.isStopping then
    some { result := Except.error StopError.alreadyStopping,
           blockedDuration := 0,
           runner := { r with mutexHeld := true } }
  else
    let r' : Runner := { r with isStopping := true }
    match wgEmptyTime with
    | some t =>
      if t ≤ r.config.MaximumCleanUpDuration then
        some { result := Except.ok (), blockedDuration := t, runner := r' }
      else
        some { result := Except.error (StopError.timeout r.config.MaximumCleanUpDuration),
               blockedDuration := r.config.MaximumCleanUpDuration, runner := r' }
    | none =>
      some { result := Except.error (StopError.timeout r.config.MaximumCleanUpDuration),
             blockedDuration := r.config.MaximumCleanUpDuration, runner := r' }

/-- `IsStopping`: unsynchronized read of the stopping flag. -/
def IsStopping (r : Runner) : Bool :=
  r.isStopping

/-- How an iteration of the worker loop of `StartNewWorker` ends. -/
inductive WorkerStatus where
  | looping
  | parked
  | blockedOnMutex
deriving DecidableEq, Repr

/-- The environment of one iteration of the worker loop: the value the work
function returns in this iteration, and whether a concurrent `Stop` call
set the stopping flag before this iteration reads it (the read
`r.isStopping` in the loop is unsynchronized). -/
structure WorkerIterationInput where
  workErr : Option String
  stopRequested : Bool
deriving DecidableEq, Repr

/-- Result of running (a prefix of) the worker loop: the runner state as
left by the loop, the error messages logged, how many times `parkWorker`
decremented the counter, and whether the loop is still iterating, has
parked, or is blocked forever inside `parkWorker`. -/
structure WorkerLoopResult where
  runner : Runner
  logs : List String
  nDecrements : Nat
  status : WorkerStatus
deriving DecidableEq, Repr

/-- The log entries one loop iteration emits for the work-function result:
the error message when there is one (`if err != nil`), nothing
otherwise. -/
def workErrLogs (input : WorkerIterationInput) : List String :=
  match input.workErr with
  | some e => [e]
  | none => []

/-- One iteration of the `for` loop in the worker goroutine of
`StartNewWorker`: `err := r.run(worker)` (waitgroup up around the work
function, then back down), log `err` if non-nil, then read `isStopping`;
if it is observed true, `parkWorker` and leave the loop (the worker then
sleeps `MaximumCleanUpDuration` and its goroutine ends), else sleep
`WorkerSleepDuration` and iterate. -/
def workerIteration (r : Runner) (input : WorkerIterationInput) : WorkerLoopResult :=
  let r1 := runEnd (runBegin r)
  let logs := workErrLogs input
  let r2 := if input.stopRequested then { r1 with isStopping := true } else r1
  if r2.isStopping then
    match parkWorker r2 with
    | some r3 =>
      { runner := r3, logs := logs, nDecrements := 1, status := WorkerStatus.parked }
    | none =>
      { runner := r2, logs := logs, nDecrements := 0,
        status := WorkerStatus.blockedOnMutex }
  else
    { runner := r2, logs := logs, nDecrements := 0, status := WorkerStatus.looping }

/-- The worker loop run through the given sequence of iteration
environments (or through as many as it consumes before it parks or
blocks). -/
def workerLoop (r : Runner) (inputs : List WorkerIterationInput) : WorkerLoopResult :=
  match inputs with
  | [] => { runner := r, logs := [], nDecrements := 0, status := WorkerStatus.looping }
  | input :: rest =>
    let res := workerIteration r input
    match res.status with
    | WorkerStatus.looping =>
      let restRes := workerLoop res.runner rest
      { runner := restRes.runner, logs := res.logs ++ restRes.logs,
        nDecrements := res.nDecrements + restRes.nDecrements,
        status := restRes.status }
    | _ => res

/-- Forget the work-function result of an iteration environment. -/
def eraseWorkErr (input : WorkerIterationInput) : WorkerIterationInput :=
  { input with workErr := none }

/-- The `Service` fields the lifecycle core uses: the runners in
registration order. -/
structure Service where
  runners : List Runner
deriving DecidableEq, Repr

/-- `installRunner`: append to the ordered sequence. -/
def installRunner (s : Service) (r : Runner) : Service :=
  { s with runners := s.runners ++ [r] }

/-- `countNTotalWorkers`: sum of `nWorkers` over the installed runners. -/
def countNTotalWorkers (s : Service) : Int :=
  (s.runners.map (fun r => r.nWorkers)).sum

/-- Observable events of `RunWithCleanUp`, in order of occurrence:
blocking on the signal channel, firing the interrupt listeners
(asynchronously), each completed `Stop` call (runner name and result),
the synchronous cleanup call, and the final `os.Exit`. -/
inductive Event where
  | signalWait
  | notifyListeners
  | stopped (name : String) (result : Except StopError Unit)
  | cleanedUp
  | exited (code : Nat)
deriving DecidableEq, Repr

/-- The shutdown loop of `RunWithCleanUp`, already given the runners in the
order it visits them (index `len-1` down to `0`), each paired with the
`wg.Wait` completion time its `Stop` call will see. Each `Stop` completes
before the next begins; if one blocks forever, no later one runs
(`none`). -/
def stopAllFrom : List (Runner × Option Int) → Option (List (String × Except StopError Unit))
  | [] => some []
  | (r, t) :: rest =>
    match Stop r t with
    | none => none
    | some out =>
      match stopAllFrom rest with
      | none => none
      | some tail => some ((r.config.Name, out.result) :: tail)

/-- The `err` variable after the shutdown loop: each non-nil `runnerErr`
overwrites it, so it ends as the last error seen (`none` if every `Stop`
succeeded). -/
def lastStopErr (results : List (String × Except StopError Unit)) : Option StopError :=
  results.foldl
    (fun acc p =>
      match p.2 with
      | Except.error e => some e
      | Except.ok _ => acc)
    none

/-- The exit code passed to `os.Exit` at the end of `RunWithCleanUp`: after
the shutdown loop, a non-nil `cleanUpErr` overwrites `err`; the process
exits 1 if `err` is non-nil and 0 otherwise. (The value of the last error
is discarded here because only nil-ness decides the code.) -/
def shutdownExitCode (results : List (String × Except StopError Unit))
    (cleanUpErr : Option String) : Nat :=
  if cleanUpErr.isSome || (lastStopErr results).isSome then 1 else 0

/-- `RunWithCleanUp`: if at least one runner is installed and the total
worker count is below 1, log and `os.Exit(1)` at once. Otherwise block on
the signal channel; on a termination signal, fire the interrupt listeners
asynchronously, stop the runners in reverse registration order (runner
`i` paired with `wgEmptyTimes[i]`, the time its `wg.Wait` completes),
call the cleanup function synchronously, and exit with the aggregated
code. `none` if some `Stop` blocks forever. -/
def RunWithCleanUp (s : Service) (wgEmptyTimes : List (Option Int))
    (cleanUpErr : Option String) : Option (List Event) :=
  if 0 < s.runners.length ∧ countNTotalWorkers s < 1 then
    some [Event.exited 1]
  else
    match stopAllFrom ((s.runners.zip wgEmptyTimes).reverse) with
    | none => none
    | some results =>
      some ([Event.signalWait, Event.notifyListeners]
        ++ results.map (fun p => Event.stopped p.1 p.2)
        ++ [Event.cleanedUp, Event.exited (shutdownExitCode results cleanUpErr)])

/-- A concrete configuration used in witnesses and counterexamples:
no initial delay or jitter, a 5 second maximum cleanup duration, a
1 second inter-run sleep. -/
def exampleConfig : RunnerConfig :=
  { InitDelayDuration := 0, InitDelayJitterDuration := 0,
    MaximumCleanUpDuration := 5000000000, Name := "example",
    WorkerSleepDuration := 1000000000 }

/-- The state of a fresh runner on `exampleConfig` right after
`StartNewWorker` has counted its one worker. -/
def workerStartedRunner : Runner :=
  { config := exampleConfig, isStopping := false, nWorkers := 1, wgCount := 0,
    mutexHeld := false }

/-- A runner on `exampleConfig` whose stopping flag is already set (a first
`Stop` call completed: flag set, mutex released) and whose one worker has
not yet parked. -/
def alreadyStoppingRunner : Runner :=
  { config := exampleConfig, isStopping := true, nWorkers := 1, wgCount := 0,
    mutexHeld := false }

/-- Everything a loop result determines except the log text: the runner
state, the number of decrements, and how the loop ended. This is the
part of the behavior the work-function results may not influence. -/
def schedulingView (res : WorkerLoopResult) : Runner × Nat × WorkerStatus :=
  (res.runner, res.nDecrements, res.status)

/-- A config like `exampleConfig` but with a different name, for
multi-runner scenarios. -/
def namedConfig (name : String) : RunnerConfig :=
  { InitDelayDuration := 0, InitDelayJitterDuration := 0,
    MaximumCleanUpDuration := 5000000000, Name := name,
    WorkerSleepDuration := 1000000000 }

/-- A runner with one counted worker on `namedConfig name`. -/
def namedRunner (name : String) : Runner :=
  { config := namedConfig name, isStopping := false, nWorkers := 1,
    wgCount := 0, mutexHeld := false }

/-- A service with one installed runner that never started a worker. -/
def emptyWorkerService : Service :=
  installRunner { runners := [] } (NewRunner exampleConfig)

/-- A service with three runners registered in order A, B, C, one worker
each. -/
def threeRunnerService : Service :=
  installRunner (installRunner (installRunner { runners := [] }
    (namedRunner "A")) (namedRunner "B")) (namedRunner "C")

/-- A service with a single runner with one worker. -/
def singleRunnerService : Service :=
  installRunner { runners := [] } workerStartedRunner

theorem jitterNanos_nonneg (j : Int) (u : ℚ) (hu0 : 0 ≤ u) :
    0 ≤ jitterNanos j u := by
  unfold jitterNanos
  split
  · rename_i hpos
    have hq : (0 : ℚ) ≤ durationSeconds j * u :=
      mul_nonneg (le_of_lt hpos) hu0
    have hfl : (0 : Int) ≤ ⌊durationSeconds j * u⌋ := Int.floor_nonneg.mpr hq
    unfold goTruncToInt
    rw [if_neg (not_lt.mpr hq)]
    positivity
  · exact le_refl 0

theorem jitterNanos_lt_of_pos (j : Int) (u : ℚ) (hu0 : 0 ≤ u) (hu1 : u < 1)
    (hj : 0 < j) : jitterNanos j u < j := by
  have hsec : 0 < durationSeconds j := by
    unfold durationSeconds
    positivity
  have hq : (0 : ℚ) ≤ durationSeconds j * u := mul_nonneg (le_of_lt hsec) hu0
  unfold jitterNanos
  rw [if_pos hsec]
  unfold goTruncToInt
  rw [if_neg (not_lt.mpr hq)]
  have h1 : (⌊durationSeconds j * u⌋ : ℚ) ≤ durationSeconds j * u :=
    Int.floor_le _
  have h2 : durationSeconds j * u < durationSeconds j := by
    nlinarith
  have h3 : (⌊durationSeconds j * u⌋ : ℚ) * 1000000000 < (j : ℚ) := by
    unfold durationSeconds at h1 h2 ⊢
    nlinarith
  exact_mod_cast h3

theorem jitterNanos_le (j : Int) (u : ℚ) (hu0 : 0 ≤ u) (hu1 : u < 1)
    (hj : 0 ≤ j) : jitterNanos j u ≤ j := by
  rcases eq_or_lt_of_le hj with h | h
  · have : jitterNanos j u = 0 := by
      unfold jitterNanos durationSeconds
      rw [if_neg]
      rw [← h]
      norm_num
    omega
  · exact le_of_lt (jitterNanos_lt_of_pos j u hu0 hu1 h)

/-- Claim C9: for every Runner with initial-delay duration `d` and jitter
bound `j` (a bound on a nonnegative random addition, so `0 ≤ j`), and for
every value `u` drawn by the random source, the computed start delay is at
least `1 + d` and at most `1 + d + j` time units (seconds scaled to
nanoseconds). -/
theorem startDelay_bounds (config : RunnerConfig) (u : ℚ)
    (hu0 : 0 ≤ u) (hu1 : u < 1) (hj : 0 ≤ config.InitDelayJitterDuration) :
    1000000000 + config.InitDelayDuration ≤ startDelay config u ∧
      startDelay config u ≤
        1000000000 + config.InitDelayDuration + config.InitDelayJitterDuration := by
  constructor
  · have := jitterNanos_nonneg config.InitDelayJitterDuration u hu0
    unfold startDelay
    omega
  · have := jitterNanos_le config.InitDelayJitterDuration u hu0 hu1 hj
    unfold startDelay
    omega

/-- Witness for C9: a concrete config (delay 2 s, jitter bound 3 s) and the
draw `u = 1/2` satisfy the hypotheses of `startDelay_bounds`, and the
resulting delay lies in the stated window. -/
theorem startDelay_bounds_witness :
    (0 ≤ (1/2 : ℚ) ∧ (1/2 : ℚ) < 1 ∧
      (0 : Int) ≤ 3000000000) ∧
    (1000000000 + 2000000000 ≤
        startDelay ⟨2000000000, 3000000000, 5000000000, "example", 1000000000⟩ (1/2) ∧
      startDelay ⟨2000000000, 3000000000, 5000000000, "example", 1000000000⟩ (1/2) ≤
        1000000000 + 2000000000 + 3000000000) :=
  ⟨⟨by norm_num, by norm_num, by norm_num⟩,
    startDelay_bounds ⟨2000000000, 3000000000, 5000000000, "example", 1000000000⟩
      (1/2) (by norm_num) (by norm_num) (by norm_num)⟩

/-- Claim C1 (amended): for a Runner that is not yet stopping (and whose
mutex is free), `Stop` sets the stopping flag and then blocks until
either the waitgroup of in-flight work-function invocations empties or
the configured maximum cleanup duration elapses, whichever first; it
returns success exactly when the waitgroup emptied within that window —
which can happen while the active-worker count is still positive — and
otherwise returns a timeout error carrying the configured duration; it
never blocks longer than that duration. -/
theorem stop_bounded_wait (r : Runner) (t : Option Int)
    (hstop : r.isStopping = false) (hm : r.mutexHeld = false) :
    ∃ out, Stop r t = some out ∧
      out.runner = { r with isStopping := true } ∧
      (out.result = Except.ok () ↔
        ∃ t0, t = some t0 ∧ t0 ≤ r.config.MaximumCleanUpDuration) ∧
      (out.result ≠ Except.ok () →
        out.result = Except.error (StopError.timeout r.config.MaximumCleanUpDuration)) ∧
      out.blockedDuration ≤ r.config.MaximumCleanUpDuration := by
  match t with
  | none =>
    refine ⟨{ result := Except.error (StopError.timeout r.config.MaximumCleanUpDuration),
              blockedDuration := r.config.MaximumCleanUpDuration,
              runner := { r with isStopping := true } }, ?_, rfl, by simp,
            fun _ => rfl, le_refl _⟩
    simp [Stop, hm, hstop]
  | some t0 =>
    by_cases hle : t0 ≤ r.config.MaximumCleanUpDuration
    · refine ⟨{ result := Except.ok (), blockedDuration := t0,
                runner := { r with isStopping := true } }, ?_, rfl, by simp [hle],
              by simp, hle⟩
      simp [Stop, hm, hstop, hle]
    · refine ⟨{ result := Except.error (StopError.timeout r.config.MaximumCleanUpDuration),
                blockedDuration := r.config.MaximumCleanUpDuration,
                runner := { r with isStopping := true } }, ?_, rfl, ?_,
              fun _ => rfl, le_refl _⟩
      · simp [Stop, hm, hstop, hle]
      · simp
        omega

/-- Witness for C1: on `workerStartedRunner` (not stopping, mutex free)
with the waitgroup emptying at once, `Stop` behaves as
`stop_bounded_wait` states. -/
theorem stop_bounded_wait_witness :
    (workerStartedRunner.isStopping = false ∧ workerStartedRunner.mutexHeld = false) ∧
    ∃ out, Stop workerStartedRunner (some 0) = some out ∧
      out.runner = { workerStartedRunner with isStopping := true } ∧
      (out.result = Except.ok () ↔
        ∃ t0, (some 0 : Option Int) = some t0 ∧
          t0 ≤ workerStartedRunner.config.MaximumCleanUpDuration) ∧
      (out.result ≠ Except.ok () →
        out.result = Except.error
          (StopError.timeout workerStartedRunner.config.MaximumCleanUpDuration)) ∧
      out.blockedDuration ≤ workerStartedRunner.config.MaximumCleanUpDuration :=
  ⟨⟨by decide, by decide⟩,
    stop_bounded_wait workerStartedRunner (some 0) (by decide) (by decide)⟩

/-- Counterexample to claim C1 as stated: a runner with one started worker
that has completed a loop iteration (observing the stopping flag false)
and is in its inter-run sleep has active-worker count 1 but waitgroup
count 0, so `wg.Wait` returns at once and `Stop` returns success
immediately — although the active-worker count was 1 throughout and
never reached zero. -/
theorem stop_success_with_active_worker :
    countNewWorker (NewRunner exampleConfig) = some workerStartedRunner ∧
    workerIteration workerStartedRunner { workErr := none, stopRequested := false } =
      { runner := workerStartedRunner, logs := [], nDecrements := 0,
        status := WorkerStatus.looping } ∧
    workerStartedRunner.wgCount = 0 ∧
    Stop workerStartedRunner (some 0) =
      some { result := Except.ok (), blockedDuration := 0,
             runner := { workerStartedRunner with isStopping := true } } ∧
    ({ workerStartedRunner with isStopping := true } : Runner).nWorkers = 1 := by
  refine ⟨by decide, by decide, by decide, by decide, by decide⟩

/-- Claim C4 (amended): a `Stop` call on a Runner whose stopping flag is
already true returns the already-stopping error immediately (the caller
is blocked for 0 time and the wait is not entered), leaving the stopping
flag, the active-worker counter and the rest of the runner state
unchanged — except that the early return leaves the mutex held. -/
theorem stop_when_already_stopping (r : Runner) (t : Option Int)
    (hstop : r.isStopping = true) (hm : r.mutexHeld = false) :
    Stop r t = some { result := Except.error StopError.alreadyStopping,
                      blockedDuration := 0,
                      runner := { r with mutexHeld := true } } := by
  unfold Stop
  rw [if_neg (by simp [hm]), if_pos hstop]

/-- Witness for C4: the amended statement at the concrete runner
`alreadyStoppingRunner`. -/
theorem stop_when_already_stopping_witness :
    (alreadyStoppingRunner.isStopping = true ∧ alreadyStoppingRunner.mutexHeld = false) ∧
    Stop alreadyStoppingRunner none =
      some { result := Except.error StopError.alreadyStopping,
             blockedDuration := 0,
             runner := { alreadyStoppingRunner with mutexHeld := true } } :=
  ⟨⟨by decide, by decide⟩,
    stop_when_already_stopping alreadyStoppingRunner none (by decide) (by decide)⟩

/-- Counterexample to claim C4 as stated: the second `Stop` call does
change Runner state — the early return keeps the mutex it acquired at
entry, so the runner it leaves behind differs from the one it was called
on. -/
theorem stop_already_stopping_changes_state :
    (Stop alreadyStoppingRunner none).map StopOutcome.runner =
      some { alreadyStoppingRunner with mutexHeld := true } ∧
    ({ alreadyStoppingRunner with mutexHeld := true } : Runner) ≠ alreadyStoppingRunner := by
  refine ⟨by decide, by decide⟩

/-- Claim C5: the early-return path of `Stop` (stopping flag already true)
returns while still holding the mutex acquired at entry; afterwards every
operation that acquires that mutex — a further `Stop`, `countNewWorker`
(via `StartNewWorker`), or a worker entering `parkWorker` — blocks
forever. -/
theorem stop_early_return_holds_mutex (r : Runner) (t t2 : Option Int) (u : ℚ)
    (hstop : r.isStopping = true) (hm : r.mutexHeld = false) :
    ∃ out, Stop r t = some out ∧
      out.result = Except.error StopError.alreadyStopping ∧
      out.runner.mutexHeld = true ∧
      Stop out.runner t2 = none ∧
      countNewWorker out.runner = none ∧
      StartNewWorker out.runner u = none ∧
      parkWorker out.runner = none := by
  refine ⟨{ result := Except.error StopError.alreadyStopping, blockedDuration := 0,
            runner := { r with mutexHeld := true } }, ?_, rfl, rfl, ?_, ?_, ?_, ?_⟩
  · unfold Stop
    rw [if_neg (by simp [hm]), if_pos hstop]
  · unfold Stop
    rw [if_pos rfl]
  · unfold countNewWorker
    rw [if_pos rfl]
  · unfold StartNewWorker countNewWorker
    rw [if_pos rfl]
  · unfold parkWorker
    rw [if_pos rfl]

/-- Witness for C5: the statement at the concrete runner
`alreadyStoppingRunner`, with the second call given `some 0` as its
hypothetical waitgroup time and the random draw `0`. -/
theorem stop_early_return_holds_mutex_witness :
    (alreadyStoppingRunner.isStopping = true ∧ alreadyStoppingRunner.mutexHeld = false) ∧
    ∃ out, Stop alreadyStoppingRunner none = some out ∧
      out.result = Except.error StopError.alreadyStopping ∧
      out.runner.mutexHeld = true ∧
      Stop out.runner (some 0) = none ∧
      countNewWorker out.runner = none ∧
      StartNewWorker out.runner 0 = none ∧
      parkWorker out.runner = none :=
  ⟨⟨by decide, by decide⟩,
    stop_early_return_holds_mutex alreadyStoppingRunner none (some 0) 0
      (by decide) (by decide)⟩

theorem runEnd_runBegin (r : Runner) : runEnd (runBegin r) = r := by
  simp [runBegin, runEnd]

theorem workerIteration_no_stop (r : Runner) (input : WorkerIterationInput)
    (hstop : r.isStopping = false) (hreq : input.stopRequested = false) :
    workerIteration r input =
      { runner := r, logs := workErrLogs input, nDecrements := 0,
        status := WorkerStatus.looping } := by
  unfold workerIteration
  rw [runEnd_runBegin, hreq]
  simp [hstop]

theorem workerIteration_stop_requested (r : Runner) (input : WorkerIterationInput)
    (hm : r.mutexHeld = false) (hreq : input.stopRequested = true) :
    workerIteration r input =
      { runner := { r with isStopping := true, nWorkers := r.nWorkers - 1 },
        logs := workErrLogs input, nDecrements := 1,
        status := WorkerStatus.parked } := by
  unfold workerIteration
  rw [runEnd_runBegin, hreq]
  simp [parkWorker, hm]

theorem workerIteration_schedulingView (r : Runner) (input : WorkerIterationInput) :
    schedulingView (workerIteration r (eraseWorkErr input)) =
      schedulingView (workerIteration r input) := by
  unfold workerIteration eraseWorkErr schedulingView
  dsimp only
  split
  all_goals split
  all_goals first
    | rfl
    | (split <;> rfl)

theorem workerLoop_schedulingView (r : Runner) (inputs : List WorkerIterationInput) :
    schedulingView (workerLoop r (inputs.map eraseWorkErr)) =
      schedulingView (workerLoop r inputs) := by
  induction inputs generalizing r with
  | nil => rfl
  | cons input rest ih =>
    have h := workerIteration_schedulingView r input
    have h1 : (workerIteration r (eraseWorkErr input)).runner =
        (workerIteration r input).runner := congrArg Prod.fst h
    have h2 : (workerIteration r (eraseWorkErr input)).nDecrements =
        (workerIteration r input).nDecrements := congrArg (fun p => p.2.1) h
    have h3 : (workerIteration r (eraseWorkErr input)).status =
        (workerIteration r input).status := congrArg (fun p => p.2.2) h
    simp only [List.map_cons, workerLoop]
    rw [h1, h2, h3]
    cases hs : (workerIteration r input).status with
    | looping =>
      have g := ih (workerIteration r input).runner
      have g1 : (workerLoop (workerIteration r input).runner (rest.map eraseWorkErr)).runner =
          (workerLoop (workerIteration r input).runner rest).runner := congrArg Prod.fst g
      have g2 : (workerLoop (workerIteration r input).runner (rest.map eraseWorkErr)).nDecrements =
          (workerLoop (workerIteration r input).runner rest).nDecrements :=
        congrArg (fun p => p.2.1) g
      have g3 : (workerLoop (workerIteration r input).runner (rest.map eraseWorkErr)).status =
          (workerLoop (workerIteration r input).runner rest).status :=
        congrArg (fun p => p.2.2) g
      unfold schedulingView
      rw [g1, g2, g3]
    | parked => exact h
    | blockedOnMutex => exact h

theorem workerLoop_decrements (r : Runner) (inputs : List WorkerIterationInput)
    (hm : r.mutexHeld = false) (hstop : r.isStopping = false) :
    (workerLoop r inputs).nDecrements =
        (if (workerLoop r inputs).status = WorkerStatus.parked then 1 else 0) ∧
      ((workerLoop r inputs).status = WorkerStatus.parked ↔
        inputs.any (fun i => i.stopRequested) = true) := by
  induction inputs generalizing r with
  | nil => simp [workerLoop]
  | cons input rest ih =>
    by_cases hreq : input.stopRequested = true
    · have hiter := workerIteration_stop_requested r input hm hreq
      simp only [workerLoop, hiter]
      simp [hreq]
    · have hreq' : input.stopRequested = false := by simpa using hreq
      have hiter := workerIteration_no_stop r input hstop hreq'
      simp only [workerLoop, hiter]
      obtain ⟨d1, d2⟩ := ih r hm hstop
      constructor
      · simpa using d1
      · simp only [List.any_cons, hreq']
        simpa using d2

theorem workerLoop_boom (n : Nat) (r : Runner) (hstop : r.isStopping = false) :
    workerLoop r
        (List.replicate n { workErr := some "boom", stopRequested := false }) =
      { runner := r, logs := List.replicate n "boom", nDecrements := 0,
        status := WorkerStatus.looping } := by
  induction n generalizing r with
  | zero => rfl
  | succ n ihn =>
    rw [List.replicate_succ]
    have hiter := workerIteration_no_stop r
      { workErr := some "boom", stopRequested := false } hstop rfl
    simp only [workerLoop, hiter]
    rw [ihn r hstop]
    simp [workErrLogs, List.replicate_succ]

/-- Claim C6: `StartNewWorker` increments the active-worker counter
synchronously, before the worker task (and hence any start delay)
begins, so the runner it returns already shows a count of at least one
to any later `Stop` call; and over any run of the worker loop the
matching decrement is performed exactly once when the loop observes the
stopping flag after a work-function invocation (parking), and not at
all otherwise. -/
theorem worker_count_protocol (r : Runner) (u : ℚ) (inputs : List WorkerIterationInput)
    (hm : r.mutexHeld = false) (hstop : r.isStopping = false) (hn : 0 ≤ r.nWorkers) :
    (StartNewWorker r u =
        some ({ r with nWorkers := r.nWorkers + 1 }, startDelay r.config u) ∧
      1 ≤ ({ r with nWorkers := r.nWorkers + 1 } : Runner).nWorkers) ∧
    ((workerLoop r inputs).nDecrements =
        (if (workerLoop r inputs).status = WorkerStatus.parked then 1 else 0) ∧
      ((workerLoop r inputs).status = WorkerStatus.parked ↔
        inputs.any (fun i => i.stopRequested) = true)) := by
  refine ⟨⟨?_, by show (1 : Int) ≤ r.nWorkers + 1; omega⟩,
    workerLoop_decrements r inputs hm hstop⟩
  unfold StartNewWorker countNewWorker
  rw [if_neg (by simp [hm])]

/-- Witness for C6: the statement at `workerStartedRunner`, draw `0`, and a
two-iteration schedule whose second iteration observes a concurrent
stop request. -/
theorem worker_count_protocol_witness :
    (workerStartedRunner.mutexHeld = false ∧
      workerStartedRunner.isStopping = false ∧ 0 ≤ workerStartedRunner.nWorkers) ∧
    ((StartNewWorker workerStartedRunner 0 =
        some ({ workerStartedRunner with nWorkers := workerStartedRunner.nWorkers + 1 },
          startDelay workerStartedRunner.config 0) ∧
      1 ≤ ({ workerStartedRunner with
              nWorkers := workerStartedRunner.nWorkers + 1 } : Runner).nWorkers) ∧
    ((workerLoop workerStartedRunner
          [{ workErr := none, stopRequested := false },
           { workErr := some "x", stopRequested := true }]).nDecrements =
        (if (workerLoop workerStartedRunner
              [{ workErr := none, stopRequested := false },
               { workErr := some "x", stopRequested := true }]).status =
            WorkerStatus.parked then 1 else 0) ∧
      ((workerLoop workerStartedRunner
          [{ workErr := none, stopRequested := false },
           { workErr := some "x", stopRequested := true }]).status =
          WorkerStatus.parked ↔
        ([{ workErr := none, stopRequested := false },
          { workErr := some "x", stopRequested := true }] :
            List WorkerIterationInput).any (fun i => i.stopRequested) = true))) :=
  ⟨⟨by decide, by decide, by decide⟩,
    worker_count_protocol workerStartedRunner 0
      [{ workErr := none, stopRequested := false },
       { workErr := some "x", stopRequested := true }]
      (by decide) (by decide) (by decide)⟩

/-- Claim C8: work-function errors are contained: the runner state, the
decrement count and the loop status after any run of the worker loop are
independent of the work-function results (errors only add log entries,
they are never propagated and never alter scheduling); over `n`
iterations of an always-failing work function the loop logs the `n`
errors, keeps looping, never decrements, and leaves the runner — in
particular its active-worker count — unchanged; no branch of the loop
terminates the process. -/
theorem work_errors_contained (r : Runner) (inputs : List WorkerIterationInput)
    (n : Nat) (hstop : r.isStopping = false) :
    schedulingView (workerLoop r (inputs.map eraseWorkErr)) =
        schedulingView (workerLoop r inputs) ∧
    workerLoop r
        (List.replicate n { workErr := some "boom", stopRequested := false }) =
      { runner := r, logs := List.replicate n "boom", nDecrements := 0,
        status := WorkerStatus.looping } :=
  ⟨workerLoop_schedulingView r inputs, workerLoop_boom n r hstop⟩

/-- Witness for C8: the statement at `workerStartedRunner`, a mixed
two-iteration schedule, and three boom iterations. -/
theorem work_errors_contained_witness :
    workerStartedRunner.isStopping = false ∧
    (schedulingView (workerLoop workerStartedRunner
          ([{ workErr := some "x", stopRequested := false },
            { workErr := none, stopRequested := true }].map eraseWorkErr)) =
        schedulingView (workerLoop workerStartedRunner
          [{ workErr := some "x", stopRequested := false },
           { workErr := none, stopRequested := true }]) ∧
    workerLoop workerStartedRunner
        (List.replicate 3 { workErr := some "boom", stopRequested := false }) =
      { runner := workerStartedRunner, logs := List.replicate 3 "boom",
        nDecrements := 0, status := WorkerStatus.looping }) :=
  ⟨by decide,
    work_errors_contained workerStartedRunner
      [{ workErr := some "x", stopRequested := false },
       { workErr := none, stopRequested := true }] 3 (by decide)⟩

theorem Stop_isSome (r : Runner) (t : Option Int) (hm : r.mutexHeld = false) :
    (Stop r t).isSome := by
  unfold Stop
  rw [if_neg (by simp [hm])]
  by_cases hs : r.isStopping = true
  · rw [if_pos hs]
    rfl
  · rw [if_neg hs]
    dsimp only
    cases t with
    | none => rfl
    | some t0 =>
      dsimp only
      by_cases hle : t0 ≤ r.config.MaximumCleanUpDuration
      · rw [if_pos hle]
        rfl
      · rw [if_neg hle]
        rfl

theorem stopAllFrom_isSome (pairs : List (Runner × Option Int))
    (hm : ∀ p ∈ pairs, p.1.mutexHeld = false) :
    ∃ results, stopAllFrom pairs = some results ∧
      results.map Prod.fst = pairs.map (fun p => p.1.config.Name) := by
  induction pairs with
  | nil => exact ⟨[], rfl, rfl⟩
  | cons p rest ih =>
    obtain ⟨r, t⟩ := p
    have hm1 : r.mutexHeld = false := hm (r, t) (List.mem_cons_self _ _)
    have hmrest : ∀ q ∈ rest, q.1.mutexHeld = false := fun q hq =>
      hm q (List.mem_cons_of_mem _ hq)
    obtain ⟨tail, htail, hnames⟩ := ih hmrest
    have hS := Stop_isSome r t hm1
    cases hout : Stop r t with
    | none => rw [hout] at hS; exact absurd hS (by simp)
    | some out =>
      refine ⟨(r.config.Name, out.result) :: tail, ?_, ?_⟩
      · simp only [stopAllFrom]
        rw [hout, htail]
      · simp [hnames]

theorem lastStopErr_eq_none_iff (results : List (String × Except StopError Unit)) :
    lastStopErr results = none ↔ ∀ p ∈ results, p.2 = Except.ok () := by
  unfold lastStopErr
  suffices h : ∀ acc : Option StopError,
      (results.foldl
          (fun acc p =>
            match p.2 with
            | Except.error e => some e
            | Except.ok _ => acc)
          acc) = none ↔
        acc = none ∧ ∀ p ∈ results, p.2 = Except.ok () by
    rw [h none]
    simp
  induction results with
  | nil => intro acc; simp
  | cons p rest ih =>
    intro acc
    rw [List.foldl_cons, ih]
    cases hp : p.2 with
    | ok u =>
      cases u
      simp [hp]
    | error e =>
      simp [hp]

theorem shutdownExitCode_eq_zero_iff (results : List (String × Except StopError Unit))
    (cleanUpErr : Option String) :
    shutdownExitCode results cleanUpErr = 0 ↔
      ((∀ p ∈ results, p.2 = Except.ok ()) ∧ cleanUpErr = none) := by
  unfold shutdownExitCode
  by_cases hc : cleanUpErr.isSome = true
  · rw [if_pos (by simp [hc])]
    simp only [Option.isSome_iff_exists] at hc
    obtain ⟨e, he⟩ := hc
    simp [he]
  · have hc' : cleanUpErr = none := by
      cases cleanUpErr with
      | none => rfl
      | some e => exact absurd rfl hc
    by_cases hl : (lastStopErr results).isSome = true
    · rw [if_pos (by simp [hl])]
      constructor
      · intro h; exact absurd h (by simp)
      · intro h
        rw [(lastStopErr_eq_none_iff results).mpr h.1] at hl
        exact absurd hl (by simp)
    · have hl' : lastStopErr results = none := by
        cases hle : lastStopErr results with
        | none => rfl
        | some e => rw [hle] at hl; exact absurd rfl hl
      rw [if_neg (by simp [hc', hl'])]
      exact ⟨fun _ => ⟨(lastStopErr_eq_none_iff results).mp hl', hc'⟩, fun _ => rfl⟩

/-- Claim C2: on a termination signal, the runners are stopped strictly in
reverse registration order, sequentially — the shutdown loop visits the
registered runners last-to-first, each `Stop` completing before the next
begins — and only after all of them comes the synchronous cleanup call,
then the exit. -/
theorem shutdown_reverse_order (s : Service) (wgEmptyTimes : List (Option Int))
    (cleanUpErr : Option String)
    (hm : ∀ r ∈ s.runners, r.mutexHeld = false)
    (hlen : wgEmptyTimes.length = s.runners.length)
    (hpre : ¬(0 < s.runners.length ∧ countNTotalWorkers s < 1)) :
    ∃ results,
      results.map Prod.fst = (s.runners.map (fun r => r.config.Name)).reverse ∧
      RunWithCleanUp s wgEmptyTimes cleanUpErr =
        some ([Event.signalWait, Event.notifyListeners]
          ++ results.map (fun p => Event.stopped p.1 p.2)
          ++ [Event.cleanedUp, Event.exited (shutdownExitCode results cleanUpErr)]) := by
  have hm' : ∀ p ∈ (s.runners.zip wgEmptyTimes).reverse, p.1.mutexHeld = false := by
    intro p hp
    rw [List.mem_reverse] at hp
    exact hm p.1 (List.of_mem_zip hp).1
  obtain ⟨results, hres, hnames⟩ := stopAllFrom_isSome _ hm'
  refine ⟨results, ?_, ?_⟩
  · rw [hnames, List.map_reverse]
    have : (s.runners.zip wgEmptyTimes).map (fun p => p.1.config.Name) =
        ((s.runners.zip wgEmptyTimes).map Prod.fst).map (fun r => r.config.Name) := by
      rw [List.map_map]
      rfl
    rw [this, List.map_fst_zip _ _ (le_of_eq hlen.symm)]
  · unfold RunWithCleanUp
    rw [if_neg hpre, hres]

/-- Witness for C2: the statement at a service with runners A, B, C (one
worker each), all waitgroups emptying at once, no cleanup error. -/
theorem shutdown_reverse_order_witness :
    ((∀ r ∈ threeRunnerService.runners, r.mutexHeld = false) ∧
      ([some 0, some 0, some 0] : List (Option Int)).length =
        threeRunnerService.runners.length ∧
      ¬(0 < threeRunnerService.runners.length ∧
          countNTotalWorkers threeRunnerService < 1)) ∧
    ∃ results,
      results.map Prod.fst =
        (threeRunnerService.runners.map (fun r => r.config.Name)).reverse ∧
      RunWithCleanUp threeRunnerService [some 0, some 0, some 0] none =
        some ([Event.signalWait, Event.notifyListeners]
          ++ results.map (fun p => Event.stopped p.1 p.2)
          ++ [Event.cleanedUp, Event.exited (shutdownExitCode results none)]) :=
  ⟨⟨by decide, by decide, by decide⟩,
    shutdown_reverse_order threeRunnerService [some 0, some 0, some 0] none
      (by decide) (by decide) (by decide)⟩

/-- Claim C3: with at least one registered runner and a total worker count
of zero, the blocking run entry point exits the process with status 1
immediately, before the termination-signal wait; with a total worker
count of at least one, or no runner registered, the check passes and the
entry point proceeds to block on the signal. -/
theorem run_worker_count_check (s : Service) (wgEmptyTimes : List (Option Int))
    (cleanUpErr : Option String) :
    (s.runners ≠ [] → countNTotalWorkers s = 0 →
      RunWithCleanUp s wgEmptyTimes cleanUpErr = some [Event.exited 1] ∧
        Event.signalWait ∉ ([Event.exited 1] : List Event)) ∧
    (s.runners = [] ∨ 1 ≤ countNTotalWorkers s →
      ∀ tr, RunWithCleanUp s wgEmptyTimes cleanUpErr = some tr →
        tr.head? = some Event.signalWait) := by
  constructor
  · intro hne hzero
    refine ⟨?_, by simp⟩
    unfold RunWithCleanUp
    rw [if_pos ⟨by simpa [List.length_pos] using hne, by omega⟩]
  · intro hok tr htr
    unfold RunWithCleanUp at htr
    rw [if_neg (by rcases hok with h | h <;> simp [h])] at htr
    cases hres : stopAllFrom ((s.runners.zip wgEmptyTimes).reverse) with
    | none => rw [hres] at htr; exact absurd htr (by simp)
    | some results =>
      rw [hres] at htr
      have : tr = [Event.signalWait, Event.notifyListeners]
          ++ results.map (fun p => Event.stopped p.1 p.2)
          ++ [Event.cleanedUp, Event.exited (shutdownExitCode results cleanUpErr)] := by
        exact (Option.some.injEq .. ▸ htr).symm
      rw [this]
      rfl

/-- Witness for C3: a service whose single runner never started a worker
exits 1 at once; a service whose single runner has one worker reaches
the signal wait. -/
theorem run_worker_count_check_witness :
    (emptyWorkerService.runners ≠ [] ∧ countNTotalWorkers emptyWorkerService = 0 ∧
      RunWithCleanUp emptyWorkerService [some 0] none = some [Event.exited 1]) ∧
    ((singleRunnerService.runners = [] ∨ 1 ≤ countNTotalWorkers singleRunnerService) ∧
      (RunWithCleanUp singleRunnerService [some 0] none).map (fun tr => tr.head?) =
        some (some Event.signalWait)) := by
  constructor
  · refine ⟨by decide, by decide, ?_⟩
    exact ((run_worker_count_check emptyWorkerService [some 0] none).1
      (by decide) (by decide)).1
  · refine ⟨by decide, ?_⟩
    have h := (run_worker_count_check singleRunnerService [some 0] none).2
      (by decide)
    cases htr : RunWithCleanUp singleRunnerService [some 0] none with
    | none => exact absurd htr (by decide)
    | some tr =>
      show some tr.head? = some (some Event.signalWait)
      rw [h tr htr]

/-- Claim C7: after the termination signal, the process exit status is 0
exactly when no `Stop` in the shutdown loop returned an error and the
cleanup function returned no error, and 1 exactly otherwise (any stop
error or a cleanup error). -/
theorem exit_code_aggregation (s : Service) (wgEmptyTimes : List (Option Int))
    (cleanUpErr : Option String)
    (hm : ∀ r ∈ s.runners, r.mutexHeld = false)
    (hpre : ¬(0 < s.runners.length ∧ countNTotalWorkers s < 1)) :
    ∃ results,
      stopAllFrom ((s.runners.zip wgEmptyTimes).reverse) = some results ∧
      RunWithCleanUp s wgEmptyTimes cleanUpErr =
        some ([Event.signalWait, Event.notifyListeners]
          ++ results.map (fun p => Event.stopped p.1 p.2)
          ++ [Event.cleanedUp, Event.exited (shutdownExitCode results cleanUpErr)]) ∧
      (shutdownExitCode results cleanUpErr = 0 ↔
        ((∀ p ∈ results, p.2 = Except.ok ()) ∧ cleanUpErr = none)) ∧
      (shutdownExitCode results cleanUpErr = 1 ↔
        ¬((∀ p ∈ results, p.2 = Except.ok ()) ∧ cleanUpErr = none)) := by
  have hm' : ∀ p ∈ (s.runners.zip wgEmptyTimes).reverse, p.1.mutexHeld = false := by
    intro p hp
    rw [List.mem_reverse] at hp
    exact hm p.1 (List.of_mem_zip hp).1
  obtain ⟨results, hres, _⟩ := stopAllFrom_isSome _ hm'
  refine ⟨results, hres, ?_, shutdownExitCode_eq_zero_iff results cleanUpErr, ?_⟩
  · unfold RunWithCleanUp
    rw [if_neg hpre, hres]
  · have h0 := shutdownExitCode_eq_zero_iff results cleanUpErr
    unfold shutdownExitCode at h0 ⊢
    by_cases hcond : (cleanUpErr.isSome || (lastStopErr results).isSome) = true
    · rw [if_pos hcond] at h0 ⊢
      constructor
      · intro _
        intro hgood
        exact absurd (h0.mpr hgood) (by simp)
      · intro _
        rfl
    · rw [if_neg hcond] at h0 ⊢
      constructor
      · intro h1
        exact absurd h1 (by simp)
      · intro hbad
        exact absurd (h0.mp rfl) hbad

/-- Witness for C7: a single-runner service whose runner never finishes
(waitgroup never empties), so its `Stop` times out and the exit code
is 1. -/
theorem exit_code_aggregation_witness :
    ((∀ r ∈ singleRunnerService.runners, r.mutexHeld = false) ∧
      ¬(0 < singleRunnerService.runners.length ∧
          countNTotalWorkers singleRunnerService < 1)) ∧
    ∃ results,
      stopAllFrom ((singleRunnerService.runners.zip [(none : Option Int)]).reverse) =
        some results ∧
      RunWithCleanUp singleRunnerService [none] none =
        some ([Event.signalWait, Event.notifyListeners]
          ++ results.map (fun p => Event.stopped p.1 p.2)
          ++ [Event.cleanedUp, Event.exited (shutdownExitCode results none)]) ∧
      (shutdownExitCode results none = 0 ↔
        ((∀ p ∈ results, p.2 = Except.ok ()) ∧ (none : Option String) = none)) ∧
      (shutdownExitCode results none = 1 ↔
        ¬((∀ p ∈ results, p.2 = Except.ok ()) ∧ (none : Option String) = none)) :=
  ⟨⟨by decide, by decide⟩,
    exit_code_aggregation singleRunnerService [none] none (by decide) (by decide)⟩

/-- Claim C10 (amended): the added start-delay jitter is always a whole
number of seconds, obtained — when the jitter bound is positive — by
truncating (jitter bound in seconds times the random fraction) toward
zero before multiplying by one second; for every jitter bound strictly
below one second the added jitter is exactly zero (the branch is skipped
or the truncation yields zero); and for every nonzero jitter bound the
added jitter is never equal to the bound itself (at bound zero the
skipped branch adds zero, which is the bound). -/
theorem jitter_whole_seconds (j : Int) (u : ℚ) (hu0 : 0 ≤ u) (hu1 : u < 1) :
    (1000000000 ∣ jitterNanos j u) ∧
    (0 < j →
      jitterNanos j u = goTruncToInt (durationSeconds j * u) * 1000000000) ∧
    (j < 1000000000 → jitterNanos j u = 0) ∧
    (j ≠ 0 → jitterNanos j u ≠ j) := by
  have hsec_pos : 0 < j → 0 < durationSeconds j := by
    intro hj
    unfold durationSeconds
    positivity
  refine ⟨?_, ?_, ?_, ?_⟩
  · unfold jitterNanos
    split
    · exact dvd_mul_left 1000000000 _
    · exact dvd_zero _
  · intro hj
    unfold jitterNanos
    rw [if_pos (hsec_pos hj)]
  · intro hj
    rcases le_or_lt j 0 with hle | hpos
    · unfold jitterNanos
      rw [if_neg]
      unfold durationSeconds
      rw [not_lt]
      have : (j : ℚ) ≤ 0 := by exact_mod_cast hle
      have h9 : (0 : ℚ) < 1000000000 := by norm_num
      exact div_nonpos_of_nonpos_of_nonneg this (le_of_lt h9)
    · unfold jitterNanos
      rw [if_pos (hsec_pos hpos)]
      have hq0 : (0 : ℚ) ≤ durationSeconds j * u :=
        mul_nonneg (le_of_lt (hsec_pos hpos)) hu0
      have hq1 : durationSeconds j * u < 1 := by
        have hsec1 : durationSeconds j < 1 := by
          unfold durationSeconds
          rw [div_lt_one (by norm_num)]
          exact_mod_cast hj
        nlinarith [hsec_pos hpos]
      unfold goTruncToInt
      rw [if_neg (not_lt.mpr hq0)]
      rw [Int.floor_eq_zero_iff.mpr ⟨hq0, hq1⟩]
      norm_num
  · intro hj
    rcases lt_trichotomy j 0 with hneg | h0 | hpos
    · have hz : jitterNanos j u = 0 := by
        unfold jitterNanos
        rw [if_neg]
        unfold durationSeconds
        rw [not_lt]
        have : (j : ℚ) ≤ 0 := by exact_mod_cast le_of_lt hneg
        exact div_nonpos_of_nonpos_of_nonneg this (by norm_num)
      omega
    · exact absurd h0 hj
    · exact ne_of_lt (jitterNanos_lt_of_pos j u hu0 hu1 hpos)

/-- Witness for C10: the statement at the half-second jitter bound and the
draw `u = 1/2`. -/
theorem jitter_whole_seconds_witness :
    (0 ≤ (1/2 : ℚ) ∧ (1/2 : ℚ) < 1) ∧
    ((1000000000 ∣ jitterNanos 500000000 (1/2)) ∧
    ((0 : Int) < 500000000 →
      jitterNanos 500000000 (1/2) =
        goTruncToInt (durationSeconds 500000000 * (1/2)) * 1000000000) ∧
    ((500000000 : Int) < 1000000000 → jitterNanos 500000000 (1/2) = 0) ∧
    ((500000000 : Int) ≠ 0 → jitterNanos 500000000 (1/2) ≠ 500000000)) :=
  ⟨⟨by norm_num, by norm_num⟩,
    jitter_whole_seconds 500000000 (1/2) (by norm_num) (by norm_num)⟩

/-- Counterexample to claim C10 as stated: at jitter bound 0, with the
valid draw `u = 1/2`, the jitter branch is skipped and the added jitter
is 0 — exactly equal to the jitter bound itself, refuting that the added
jitter is never equal to the bound. -/
theorem jitter_equals_zero_bound :
    (0 ≤ (1/2 : ℚ) ∧ (1/2 : ℚ) < 1) ∧ jitterNanos 0 (1/2) = 0 := by
  refine ⟨⟨by norm_num, by norm_num⟩, ?_⟩
  unfold jitterNanos durationSeconds
  norm_num

end Platform
